import Mathlib

/-!
Verification development for the push-notification client in
`apns2/newclient.py`.

The file shallowly embeds the parts of the client that the checked
properties are about:

* `NotificationPriority`, `DEFAULT_APNS_PRIORITY`,
  `CONCURRENT_STREAMS_SAFETY_MAXIMUM`, `MAX_CONNECTION_RETRIES` -- the
  module-level constants (lines 15-24 of the source).
* `prepare_headers` -- header construction (lines 88-107).  The Python
  test `if topic:` is string truthiness, so an empty topic string is
  skipped exactly as `None` is; the model keeps that behaviour.
* `get_notification_result` -- response classification (lines 129-137).
  The response body is modelled as the already-parsed JSON object, an
  association list from field names to string values; a missing
  `reason` field is the `KeyError` path, modelled as `Except.error`.
* `connect` -- the bounded retry loop (lines 225-240), parametrised by
  a function giving the outcome of each transport attempt; the model
  also records which attempts were made.
* `update_max_concurrent_streams` / `should_send_notification` and the
  dispatch loop of `send_notification_batch` (lines 139-223), modelled
  as an explicit fuelled state machine over `LoopState` that records
  one `IterRecord` per loop iteration.  The transport is modelled by a
  function from stream ids to responses (the transport buffers
  responses, so only the stream id matters, not arrival order) and the
  SETTINGS frames by a function from iteration index to the advertised
  ceiling.
* the positional-argument counts of `send_notification` and
  `send_notification_async` (lines 115-127), needed to settle the
  call-arity property of the single-send path.
-/

namespace APNs

/-- The priority enumeration (source lines 15-17). -/
inductive NotificationPriority where
  | Immediate
  | Delayed
  deriving DecidableEq

/-- Wire value of each priority (the enum values at source lines 16-17). -/
def NotificationPriority.value : NotificationPriority → String
  | .Immediate => "10"
  | .Delayed => "5"

/-- Source line 22. -/
def DEFAULT_APNS_PRIORITY : NotificationPriority := .Immediate

/-- Source line 23. -/
def CONCURRENT_STREAMS_SAFETY_MAXIMUM : Int := 1000

/-- Source line 24. -/
def MAX_CONNECTION_RETRIES : Nat := 3

/-- The namedtuple at source line 19: a queue entry pairing a transport
stream id with the destination token. -/
structure RequestStream where
  stream_id : Nat
  token : String
  deriving DecidableEq

/-- A transport response: status code and the parsed JSON object of the
body (association list of string fields). -/
structure Response where
  status : Nat
  body : List (String × String)
  deriving DecidableEq

/-- `APNsClient.prepare_headers` (source lines 88-107).  `authToken` is
`some tok` when the client was configured with token auth, in which
case the source appends an Authorization header built from the format
string `bearer %s` (lines 56 and 104-105).  The source builds a dict;
keys are distinct, so an ordered association list is a faithful model.
Note `if topic:` at line 98 is Python truthiness: both `None` and the
empty string skip the header. -/
def prepare_headers (priority : NotificationPriority) (topic : Option String)
    (expiration : Option Int) (authToken : Option String) : List (String × String) :=
  let headers : List (String × String) := []
  let headers := if priority ≠ DEFAULT_APNS_PRIORITY
    then headers ++ [("apns-priority", priority.value)] else headers
  let headers := match topic with
    | some t => if t = "" then headers else headers ++ [("apns-topic", t)]
    | none => headers
  let headers := match expiration with
    | some e => headers ++ [("apns-expiration", toString e)]
    | none => headers
  match authToken with
  | some tok => headers ++ [("Authorization", "bearer " ++ tok)]
  | none => headers

/-- `APNsClient.get_notification_result` (source lines 129-137): status
200 yields the success marker, otherwise the `reason` field of the
parsed body; a body without a `reason` field raises (`KeyError`),
modelled as `Except.error`. -/
def get_notification_result (r : Response) : Except Unit String :=
  if r.status = 200 then Except.ok "Success"
  else
    match List.lookup "reason" r.body with
    | some reason => Except.ok reason
    | none => Except.error ()

/-- The retry loop of `APNsClient.connect` (source lines 230-240).
`att i` tells whether transport attempt number `i` succeeds, `retries`
is the loop counter, and `budget` is the number of further attempts the
loop guard `retries < MAX_CONNECTION_RETRIES` still allows, i.e.
`MAX_CONNECTION_RETRIES - retries`; when it reaches zero the loop
exits and `ConnectionFailed` is raised, modelled as `Except.error`.
Returns the list of attempt numbers actually made together with the
outcome (`Except.ok ()` for the successful early return at source line
235). -/
def connectAttempts (att : Nat → Bool) : Nat → Nat → List Nat × Except Unit Unit
  | _, 0 => ([], Except.error ())
  | retries, budget + 1 =>
    if att retries then ([retries], Except.ok ())
    else
      let rest := connectAttempts att (retries + 1) budget
      (retries :: rest.1, rest.2)

/-- `APNsClient.connect` (source lines 225-240): the loop starts with
`retries = 0`, so the remaining budget is `MAX_CONNECTION_RETRIES`. -/
def connect (att : Nat → Bool) : List Nat × Except Unit Unit :=
  connectAttempts att 0 MAX_CONNECTION_RETRIES

/-- The clamp applied to a changed advertised ceiling inside
`update_max_concurrent_streams` (source lines 213-223): first the
too-high check against the safety maximum, then the below-one check. -/
def clampStreams (advertised : Int) : Int :=
  if advertised > CONCURRENT_STREAMS_SAFETY_MAXIMUM then CONCURRENT_STREAMS_SAFETY_MAXIMUM
  else if advertised < 1 then 1
  else advertised

/-- `APNsClient.update_max_concurrent_streams` (source lines 199-223) as
a pure state transformer on the pair of private attributes
`__previous_server_max_concurrent_streams` and
`__max_concurrent_streams` (both start as `None`, source lines 64-65).
If the advertised value equals the previous one nothing changes
(source lines 207-209); otherwise the previous value is recorded and
the clamped value stored. -/
def update_max_concurrent_streams (prev cur : Option Int) (advertised : Int) :
    Option Int × Option Int :=
  if some advertised = prev then (prev, cur)
  else (some advertised, some (clampStreams advertised))

/-- `APNsClient.should_send_notification` (source lines 196-197):
`next_token is not None and len(open_streams) < max_concurrent_streams`. -/
def should_send_notification (next_token : Option String) (openCount : Nat)
    (maxStreams : Int) : Bool :=
  next_token.isSome && decide ((openCount : Int) < maxStreams)

/-- Number of positional parameters accepted by
`send_notification_async` as defined at source lines 122-123:
`token_hex`, `priority`, `expiration` (the latter two defaulted). -/
def send_notification_async_param_count : Nat := 3

/-- Number of positional parameters of `send_notification_async`
without a default: just `token_hex`. -/
def send_notification_async_required_count : Nat := 1

/-- Number of positional arguments the call inside `send_notification`
passes to `send_notification_async` at source line 117: `token_hex`,
`notification`, `topic`, `priority`, `expiration`. -/
def send_notification_call_arg_count : Nat := 5

/-- Python call binding: a plain call binds exactly when the number of
positional arguments is between the number of required parameters and
the number of accepted parameters (no varargs in the signature). -/
def pythonCallBinds (required given accepted : Nat) : Bool :=
  decide (required ≤ given) && decide (given ≤ accepted)

/-- `APNsClient.send_notification` (source lines 115-120): it first
calls `send_notification_async` with five positional arguments; under
Python call semantics that call raises `TypeError` unless it binds, and
only on success would the result be awaited and classified (non
`Success` results raise the reason-specific exception, line 120). -/
def send_notification (r : Response) : Except String Unit :=
  if pythonCallBinds send_notification_async_required_count
      send_notification_call_arg_count send_notification_async_param_count then
    match get_notification_result r with
    | Except.ok res => if res = "Success" then Except.ok () else Except.error res
    | Except.error _ => Except.error "KeyError"
  else Except.error "TypeError"

/-- The mutable state of the dispatch loop in
`send_notification_batch` (source lines 158-192): the token cursor
(`next_token` together with the rest of the iterator, so `next_token`
is `remaining.head?`), the FIFO `open_streams` deque (head = oldest),
the next stream id the transport will hand out, and the two private
attributes read and written by `update_max_concurrent_streams`. -/
structure LoopState where
  remaining : List String
  open_streams : List RequestStream
  nextStreamId : Nat
  prevAdvertised : Option Int
  maxStreams : Option Int
  deriving DecidableEq

deriving instance DecidableEq for Except

/-- What one iteration of the dispatch loop did. -/
inductive StepEvent where
  | admitted (stream_id : Nat) (token : String)
  | drain (token : String) (outcome : Except Unit String)
  deriving DecidableEq

/-- Observation record of one iteration of the dispatch loop: the
post-refresh value of `__max_concurrent_streams`, the deque length
before and after the admission-or-drain step, and the step taken.  For a
drain step, `outcome` is exactly the value the generator yields at
source line 192 -- the classified result alone. -/
structure IterRecord where
  limit : Int
  qBefore : Nat
  qAfter : Nat
  event : StepEvent
  deriving DecidableEq

/-- One iteration of the `while` body (source lines 169-192): refresh
the limit (line 172), then either admits the next token (lines 173-181)
or pop the oldest pending stream and yield its classified result
(lines 186-192).  `resp sid` is the transport response for stream
`sid` -- the transport buffers responses, so arrival order is
irrelevant and only the stream id matters.  `none` models the
unreachable crashing paths: comparing the deque length against a
still-`None` limit, admitting with an exhausted cursor, or popping an
empty deque. -/
def dispatchIter (resp : Nat → Response) (advertised : Int) (st : LoopState) :
    Option (IterRecord × LoopState) :=
  match update_max_concurrent_streams st.prevAdvertised st.maxStreams advertised with
  | (_, none) => none
  | (prev2, some m) =>
    if should_send_notification st.remaining.head? st.open_streams.length m then
      match st.remaining with
      | [] => none
      | tok :: rest =>
        some ({ limit := m, qBefore := st.open_streams.length,
                qAfter := st.open_streams.length + 1,
                event := StepEvent.admitted st.nextStreamId tok },
              { remaining := rest,
                open_streams := st.open_streams ++ [⟨st.nextStreamId, tok⟩],
                nextStreamId := st.nextStreamId + 1,
                prevAdvertised := prev2, maxStreams := some m })
    else
      match st.open_streams with
      | [] => none
      | ps :: restQ =>
        some ({ limit := m, qBefore := st.open_streams.length, qAfter := restQ.length,
                event := StepEvent.drain ps.token (get_notification_result (resp ps.stream_id)) },
              { remaining := st.remaining, open_streams := restQ,
                nextStreamId := st.nextStreamId,
                prevAdvertised := prev2, maxStreams := some m })

/-- The dispatch loop (source line 169: run while
`len(open_streams) > 0 or next_token is not None`), with explicit fuel
so the model is executable; `i` is the iteration index used to sample
the advertised ceiling `adv i` seen by that refresh of the SETTINGS
state.  Returns the iteration records and the final state, or `none`
if the fuel runs out or a crashing path is hit. -/
def dispatchLoop (adv : Nat → Int) (resp : Nat → Response) :
    Nat → Nat → LoopState → Option (List IterRecord × LoopState)
  | fuel, i, st =>
    if 0 < st.open_streams.length ∨ st.remaining ≠ [] then
      match fuel with
      | 0 => none
      | fuel' + 1 =>
        match dispatchIter resp (adv i) st with
        | none => none
        | some (rec, st') =>
          match dispatchLoop adv resp fuel' (i + 1) st' with
          | none => none
          | some (tr, stF) => some (rec :: tr, stF)
    else some ([], st)

/-- The loop state as set up by source lines 158-165: full token
cursor, empty deque, and both concurrency attributes still `None`
(source lines 64-65).  Transport stream ids start at 1. -/
def initState (tokens : List String) : LoopState :=
  { remaining := tokens, open_streams := [], nextStreamId := 1,
    prevAdvertised := none, maxStreams := none }

/-- `APNsClient.send_notification_batch` (source lines 139-194):
prepare the shared payload and headers (modelled as inert values, they do not
affect the loop), call `connect` (line 162, which raises
`ConnectionFailed` when every attempt fails), then run the dispatch
loop. -/
def send_notification_batch (att : Nat → Bool) (adv : Nat → Int) (resp : Nat → Response)
    (tokens : List String) (fuel : Nat) :
    Except Unit (Option (List IterRecord × LoopState)) :=
  match (connect att).2 with
  | Except.error e => Except.error e
  | Except.ok _ => Except.ok (dispatchLoop adv resp fuel 0 (initState tokens))

/-- Tokens of the admitted requests, in admission order. -/
def admitTokens (tr : List IterRecord) : List String :=
  tr.filterMap fun r =>
    match r.event with
    | StepEvent.admitted _ tok => some tok
    | _ => none

/-- Tokens of the drained requests, in drain order. -/
def drainTokens (tr : List IterRecord) : List String :=
  tr.filterMap fun r =>
    match r.event with
    | StepEvent.drain tok _ => some tok
    | _ => none

/-- The values the generator actually yields at source line 192: the
classified results of the drained streams, in drain order.  No token
accompanies them. -/
def yieldedValues (tr : List IterRecord) : List (Except Unit String) :=
  tr.filterMap fun r =>
    match r.event with
    | StepEvent.drain _ out => some out
    | _ => none

/-- Coupling invariant between the two concurrency attributes: either
both are still unset, or the stored limit is the clamp of the
previously advertised value. -/
def ValidSt (st : LoopState) : Prop :=
  (st.prevAdvertised = none ∧ st.maxStreams = none) ∨
  ∃ a, st.prevAdvertised = some a ∧ st.maxStreams = some (clampStreams a)

/-- Constant advertised ceiling of 2, for concrete runs. -/
def advTwo : Nat → Int := fun _ => 2

/-- Advertised ceiling that drops from 3 to 1 at the fourth refresh. -/
def advDrop : Nat → Int := fun i => if i < 3 then 3 else 1

/-- Transport that answers every stream with status 200. -/
def respOk : Nat → Response := fun _ => { status := 200, body := [] }

/-- Transport attempts that all succeed. -/
def attOk : Nat → Bool := fun _ => true

/-- Transport attempts where the first two fail and the third succeeds. -/
def c5att : Nat → Bool := fun i => decide (2 ≤ i)

/-- Concrete completed two-token run used as a witness. -/
def c2run : Option (List IterRecord × LoopState) :=
  dispatchLoop advTwo respOk 4 0 (initState ["A", "B"])

def c2trace : List IterRecord := (c2run.getD ([], initState [])).1

def c2final : LoopState := (c2run.getD ([], initState [])).2

/-- Concrete completed one-token run used as a witness. -/
def c3run : Option (List IterRecord × LoopState) :=
  dispatchLoop advTwo respOk 2 0 (initState ["A"])

def c3trace : List IterRecord := (c3run.getD ([], initState [])).1

def c3final : LoopState := (c3run.getD ([], initState [])).2

theorem clampStreams_range (a : Int) : 1 ≤ clampStreams a ∧ clampStreams a ≤ 1000 := by
  unfold clampStreams CONCURRENT_STREAMS_SAFETY_MAXIMUM
  split
  · omega
  · split <;> omega

theorem update_of_valid (st : LoopState) (h : ValidSt st) (a : Int) :
    update_max_concurrent_streams st.prevAdvertised st.maxStreams a =
      (some a, some (clampStreams a)) := by
  unfold update_max_concurrent_streams
  rcases h with ⟨hp, _⟩ | ⟨a0, hp, hc⟩
  · rw [hp]
    simp
  · rw [hp, hc]
    split
    · rename_i heq
      have : a = a0 := by injection heq
      subst this
      rfl
    · rfl

/-- Case analysis of a successful loop iteration: it is either an
admission (cursor advances, a fresh stream is appended at the tail of
the deque, and the pre-step deque length was strictly below the
refreshed limit) or a drain (the head of the deque is popped and its
classified result recorded). -/
theorem dispatchIter_cases {resp : Nat → Response} {a : Int} {st : LoopState}
    {rec : IterRecord} {st' : LoopState}
    (h : dispatchIter resp a st = some (rec, st')) :
    rec.qBefore = st.open_streams.length ∧
    ((∃ tok rest,
        st.remaining = tok :: rest ∧
        rec.event = StepEvent.admitted st.nextStreamId tok ∧
        st'.remaining = rest ∧
        st'.open_streams = st.open_streams ++ [⟨st.nextStreamId, tok⟩] ∧
        rec.qAfter = st.open_streams.length + 1 ∧
        (st.open_streams.length : Int) < rec.limit) ∨
     (∃ ps restQ,
        st.open_streams = ps :: restQ ∧
        rec.event = StepEvent.drain ps.token (get_notification_result (resp ps.stream_id)) ∧
        st'.remaining = st.remaining ∧
        st'.open_streams = restQ ∧
        rec.qAfter = restQ.length)) := by
  unfold dispatchIter at h
  rcases hu : update_max_concurrent_streams st.prevAdvertised st.maxStreams a with ⟨p, c⟩
  rw [hu] at h
  cases c with
  | none => exact absurd h (by simp)
  | some m =>
    simp only [] at h
    by_cases hsend : should_send_notification st.remaining.head? st.open_streams.length m = true
    · rw [if_pos hsend] at h
      cases hrem : st.remaining with
      | nil =>
        rw [hrem] at h
        exact absurd h (by simp)
      | cons tok rest =>
        rw [hrem] at h
        simp only [Option.some.injEq, Prod.mk.injEq] at h
        obtain ⟨hrec, hst⟩ := h
        subst hrec hst
        unfold should_send_notification at hsend
        simp only [Bool.and_eq_true, decide_eq_true_eq] at hsend
        exact ⟨rfl, Or.inl ⟨tok, rest, rfl, rfl, rfl, rfl, rfl, hsend.2⟩⟩
    · rw [if_neg hsend] at h
      cases hq : st.open_streams with
      | nil =>
        rw [hq] at h
        exact absurd h (by simp)
      | cons ps restQ =>
        rw [hq] at h
        simp only [Option.some.injEq, Prod.mk.injEq] at h
        obtain ⟨hrec, hst⟩ := h
        subst hrec hst
        exact ⟨rfl, Or.inr ⟨ps, restQ, rfl, rfl, rfl, rfl, rfl⟩⟩

/-- From a valid state the refresh stores exactly the clamped advertised
value, and validity is preserved by the iteration. -/
theorem dispatchIter_limit {resp : Nat → Response} {a : Int} {st : LoopState}
    {rec : IterRecord} {st' : LoopState} (hv : ValidSt st)
    (h : dispatchIter resp a st = some (rec, st')) :
    rec.limit = clampStreams a ∧ ValidSt st' := by
  unfold dispatchIter at h
  rw [update_of_valid st hv a] at h
  simp only [] at h
  by_cases hsend :
      should_send_notification st.remaining.head? st.open_streams.length (clampStreams a) = true
  · rw [if_pos hsend] at h
    cases hrem : st.remaining with
    | nil => rw [hrem] at h; exact absurd h (by simp)
    | cons tok rest =>
      rw [hrem] at h
      simp only [Option.some.injEq, Prod.mk.injEq] at h
      obtain ⟨hrec, hst⟩ := h
      subst hrec hst
      exact ⟨rfl, Or.inr ⟨a, rfl, rfl⟩⟩
  · rw [if_neg hsend] at h
    cases hq : st.open_streams with
    | nil => rw [hq] at h; exact absurd h (by simp)
    | cons ps restQ =>
      rw [hq] at h
      simp only [Option.some.injEq, Prod.mk.injEq] at h
      obtain ⟨hrec, hst⟩ := h
      subst hrec hst
      exact ⟨rfl, Or.inr ⟨a, rfl, rfl⟩⟩

/-- From a valid state whose loop condition holds, the iteration cannot
crash, and its step shrinks the measure `2 * |cursor| + |deque|` by
exactly one. -/
theorem dispatchIter_total {resp : Nat → Response} {a : Int} {st : LoopState}
    (hv : ValidSt st) (hcond : 0 < st.open_streams.length ∨ st.remaining ≠ []) :
    ∃ rec st', dispatchIter resp a st = some (rec, st') ∧
      2 * st'.remaining.length + st'.open_streams.length + 1 =
        2 * st.remaining.length + st.open_streams.length := by
  unfold dispatchIter
  rw [update_of_valid st hv a]
  simp only []
  by_cases hsend :
      should_send_notification st.remaining.head? st.open_streams.length (clampStreams a) = true
  · rw [if_pos hsend]
    cases hrem : st.remaining with
    | nil =>
      exfalso
      unfold should_send_notification at hsend
      rw [hrem] at hsend
      simp at hsend
    | cons tok rest =>
      refine ⟨_, _, rfl, ?_⟩
      simp only [List.length_cons, List.length_append, List.length_singleton, List.length_nil]
      omega
  · rw [if_neg hsend]
    cases hq : st.open_streams with
    | nil =>
      exfalso
      rw [hq] at hcond
      simp only [List.length_nil, lt_irrefl, false_or] at hcond
      cases hrem : st.remaining with
      | nil => exact hcond hrem
      | cons tok rest =>
        unfold should_send_notification at hsend
        rw [hrem, hq] at hsend
        have h1 := (clampStreams_range a).1
        simp at hsend
        omega
    | cons ps restQ =>
      refine ⟨_, _, rfl, ?_⟩
      simp only [List.length_cons]
      omega

theorem admitTokens_cons_admitted {r : IterRecord} {sid : Nat} {tok : String}
    (h : r.event = StepEvent.admitted sid tok) (tr : List IterRecord) :
    admitTokens (r :: tr) = tok :: admitTokens tr := by
  simp only [admitTokens, List.filterMap_cons, h]

theorem admitTokens_cons_drain {r : IterRecord} {tok : String} {out : Except Unit String}
    (h : r.event = StepEvent.drain tok out) (tr : List IterRecord) :
    admitTokens (r :: tr) = admitTokens tr := by
  simp only [admitTokens, List.filterMap_cons, h]

theorem drainTokens_cons_admitted {r : IterRecord} {sid : Nat} {tok : String}
    (h : r.event = StepEvent.admitted sid tok) (tr : List IterRecord) :
    drainTokens (r :: tr) = drainTokens tr := by
  simp only [drainTokens, List.filterMap_cons, h]

theorem drainTokens_cons_drain {r : IterRecord} {tok : String} {out : Except Unit String}
    (h : r.event = StepEvent.drain tok out) (tr : List IterRecord) :
    drainTokens (r :: tr) = tok :: drainTokens tr := by
  simp only [drainTokens, List.filterMap_cons, h]

theorem yieldedValues_length (tr : List IterRecord) :
    (yieldedValues tr).length = (drainTokens tr).length := by
  induction tr with
  | nil => rfl
  | cons r tr ih =>
    cases hev : r.event with
    | admitted sid tok =>
      simp only [yieldedValues, drainTokens, List.filterMap_cons, hev] at ih ⊢
      exact ih
    | drain tok out =>
      simp only [yieldedValues, drainTokens, List.filterMap_cons, hev, List.length_cons] at ih ⊢
      omega

/-- Every completed run of the dispatch loop ends with an exhausted
cursor and an empty deque, admits exactly the tokens remaining at its
start in cursor order, drains the tokens of the initial deque contents
followed by the admitted tokens (strict FIFO), and takes one iteration
per unit of the measure `2 * |cursor| + |deque|`. -/
theorem dispatchLoop_shape (adv : Nat → Int) (resp : Nat → Response) :
    ∀ (fuel i : Nat) (st : LoopState) (tr : List IterRecord) (stF : LoopState),
      dispatchLoop adv resp fuel i st = some (tr, stF) →
      stF.remaining = [] ∧ stF.open_streams = [] ∧
      admitTokens tr = st.remaining ∧
      drainTokens tr = st.open_streams.map RequestStream.token ++ st.remaining ∧
      tr.length = 2 * st.remaining.length + st.open_streams.length := by
  intro fuel
  induction fuel with
  | zero =>
    intro i st tr stF h
    unfold dispatchLoop at h
    split at h
    · exact absurd h (by simp)
    · rename_i hcond
      simp only [Option.some.injEq, Prod.mk.injEq] at h
      obtain ⟨htr, hst⟩ := h
      subst htr hst
      push_neg at hcond
      obtain ⟨hlen, hrem⟩ := hcond
      have hopen : st.open_streams = [] := by
        cases hq : st.open_streams with
        | nil => rfl
        | cons a l => rw [hq] at hlen; simp at hlen
      refine ⟨hrem, hopen, ?_, ?_, ?_⟩
      · rw [hrem]; rfl
      · rw [hrem, hopen]; rfl
      · rw [hrem, hopen]; rfl
  | succ fuel ih =>
    intro i st tr stF h
    unfold dispatchLoop at h
    split at h
    · simp only [] at h
      cases hstep : dispatchIter resp (adv i) st with
      | none => rw [hstep] at h; exact absurd h (by simp)
      | some pr =>
        obtain ⟨rec, st'⟩ := pr
        rw [hstep] at h
        simp only [] at h
        cases hrec : dispatchLoop adv resp fuel (i + 1) st' with
        | none => rw [hrec] at h; exact absurd h (by simp)
        | some pr2 =>
          obtain ⟨tr', stF'⟩ := pr2
          rw [hrec] at h
          simp only [Option.some.injEq, Prod.mk.injEq] at h
          obtain ⟨htr, hstF⟩ := h
          subst htr hstF
          obtain ⟨hF1, hF2, hadm, hdr, hlen⟩ := ih (i + 1) st' tr' stF' hrec
          obtain ⟨hqb, hcase⟩ := dispatchIter_cases hstep
          rcases hcase with ⟨tok, rest, hrem, hev, hrem', hopen', hqa, hlt⟩ |
            ⟨ps, restQ, hqq, hev, hrem', hopen', hqa⟩
          · refine ⟨hF1, hF2, ?_, ?_, ?_⟩
            · rw [admitTokens_cons_admitted hev, hadm, hrem', hrem]
            · rw [drainTokens_cons_admitted hev, hdr, hrem', hopen', hrem]
              simp [List.map_append]
            · rw [List.length_cons, hlen, hrem', hopen', hrem]
              simp only [List.length_cons, List.length_append, List.length_singleton,
                List.length_nil]
              omega
          · refine ⟨hF1, hF2, ?_, ?_, ?_⟩
            · rw [admitTokens_cons_drain hev, hadm, hrem']
            · rw [drainTokens_cons_drain hev, hdr, hrem', hopen', hqq]
              simp
            · rw [List.length_cons, hlen, hrem', hopen', hqq]
              simp only [List.length_cons]
              omega
    · rename_i hcond
      simp only [Option.some.injEq, Prod.mk.injEq] at h
      obtain ⟨htr, hst⟩ := h
      subst htr hst
      push_neg at hcond
      obtain ⟨hlen, hrem⟩ := hcond
      have hopen : st.open_streams = [] := by
        cases hq : st.open_streams with
        | nil => rfl
        | cons a l => rw [hq] at hlen; simp at hlen
      refine ⟨hrem, hopen, ?_, ?_, ?_⟩
      · rw [hrem]; rfl
      · rw [hrem, hopen]; rfl
      · rw [hrem, hopen]; rfl

/-- With fuel at least `2 * |tokens remaining| + |deque|`, the dispatch
loop from a valid state completes (no crash, no fuel exhaustion). -/
theorem dispatchLoop_total (adv : Nat → Int) (resp : Nat → Response) :
    ∀ (fuel i : Nat) (st : LoopState), ValidSt st →
      2 * st.remaining.length + st.open_streams.length ≤ fuel →
      ∃ tr stF, dispatchLoop adv resp fuel i st = some (tr, stF) := by
  intro fuel
  induction fuel with
  | zero =>
    intro i st hv hm
    have h1 : st.remaining.length = 0 := by omega
    have h2 : st.open_streams.length = 0 := by omega
    have hrem := List.length_eq_zero.mp h1
    have hopen := List.length_eq_zero.mp h2
    have hc : ¬(0 < st.open_streams.length ∨ st.remaining ≠ []) := by
      simp [hrem, h2]
    refine ⟨[], st, ?_⟩
    unfold dispatchLoop
    rw [if_neg hc]
  | succ fuel ih =>
    intro i st hv hm
    by_cases hc : 0 < st.open_streams.length ∨ st.remaining ≠ []
    · obtain ⟨rec, st', hstep, hmeas⟩ := dispatchIter_total hv hc
      have hv' := (dispatchIter_limit hv hstep).2
      obtain ⟨tr, stF, hrec⟩ := ih (i + 1) st' hv' (by omega)
      refine ⟨rec :: tr, stF, ?_⟩
      unfold dispatchLoop
      rw [if_pos hc]
      simp only []
      rw [hstep]
      simp only []
      rw [hrec]
    · refine ⟨[], st, ?_⟩
      unfold dispatchLoop
      rw [if_neg hc]

/-- When the clamped advertised ceiling never decreases from one
refresh to the next, the deque length stays at or below the refreshed
limit at every iteration, both before and after the admission-or-drain
step. -/
theorem dispatchLoop_qbound (adv : Nat → Int) (resp : Nat → Response)
    (hmono : ∀ k, clampStreams (adv k) ≤ clampStreams (adv (k + 1))) :
    ∀ (fuel i : Nat) (st : LoopState) (tr : List IterRecord) (stF : LoopState),
      ValidSt st →
      (st.open_streams.length : Int) ≤ clampStreams (adv i) →
      dispatchLoop adv resp fuel i st = some (tr, stF) →
      ∀ r ∈ tr, (r.qBefore : Int) ≤ r.limit ∧ (r.qAfter : Int) ≤ r.limit := by
  intro fuel
  induction fuel with
  | zero =>
    intro i st tr stF hv hq h
    unfold dispatchLoop at h
    split at h
    · exact absurd h (by simp)
    · simp only [Option.some.injEq, Prod.mk.injEq] at h
      obtain ⟨htr, _⟩ := h
      subst htr
      intro r hr
      simp at hr
  | succ fuel ih =>
    intro i st tr stF hv hq h
    unfold dispatchLoop at h
    split at h
    · simp only [] at h
      cases hstep : dispatchIter resp (adv i) st with
      | none => rw [hstep] at h; exact absurd h (by simp)
      | some pr =>
        obtain ⟨rec, st'⟩ := pr
        rw [hstep] at h
        simp only [] at h
        cases hrec : dispatchLoop adv resp fuel (i + 1) st' with
        | none => rw [hrec] at h; exact absurd h (by simp)
        | some pr2 =>
          obtain ⟨tr', stF'⟩ := pr2
          rw [hrec] at h
          simp only [Option.some.injEq, Prod.mk.injEq] at h
          obtain ⟨htr, hstF⟩ := h
          subst htr
          have hlim := dispatchIter_limit hv hstep
          obtain ⟨hqb, hcase⟩ := dispatchIter_cases hstep
          have hq' : (st'.open_streams.length : Int) ≤ clampStreams (adv (i + 1)) := by
            rcases hcase with ⟨tok, rest, hrem, hev, hrem', hopen', hqa, hlt⟩ |
              ⟨ps, restQ, hqq, hev, hrem', hopen', hqa⟩
            · rw [hopen']
              have := hmono i
              rw [hlim.1] at hlt
              simp only [List.length_append, List.length_cons, List.length_nil]
              push_cast
              omega
            · rw [hopen']
              have := hmono i
              have : (restQ.length : Int) ≤ st.open_streams.length := by
                rw [hqq]; push_cast [List.length_cons]; omega
              omega
          intro r hr
          rcases List.mem_cons.mp hr with hr | hr
          · subst hr
            rcases hcase with ⟨tok, rest, hrem, hev, hrem', hopen', hqa, hlt⟩ |
              ⟨ps, restQ, hqq, hev, hrem', hopen', hqa⟩
            · constructor
              · rw [hqb, hlim.1]; exact hq
              · rw [hqa, hlim.1]
                rw [hlim.1] at hlt
                push_cast
                omega
            · constructor
              · rw [hqb, hlim.1]; exact hq
              · rw [hqa, hlim.1]
                have : (restQ.length : Int) ≤ st.open_streams.length := by
                  rw [hqq]; push_cast [List.length_cons]; omega
                omega
          · exact ih (i + 1) st' tr' stF' hlim.2 hq' hrec r hr
    · simp only [Option.some.injEq, Prod.mk.injEq] at h
      obtain ⟨htr, _⟩ := h
      subst htr
      intro r hr
      simp at hr

/-- In any completed run, an admission step always found the deque
strictly below the refreshed limit and grew it by exactly one, so an
admission never pushes the deque past the current limit. -/
theorem dispatchLoop_admit_bound (adv : Nat → Int) (resp : Nat → Response) :
    ∀ (fuel i : Nat) (st : LoopState) (tr : List IterRecord) (stF : LoopState),
      dispatchLoop adv resp fuel i st = some (tr, stF) →
      ∀ r ∈ tr, ∀ sid tok, r.event = StepEvent.admitted sid tok →
        (r.qBefore : Int) < r.limit ∧ r.qAfter = r.qBefore + 1 := by
  intro fuel
  induction fuel with
  | zero =>
    intro i st tr stF h
    unfold dispatchLoop at h
    split at h
    · exact absurd h (by simp)
    · simp only [Option.some.injEq, Prod.mk.injEq] at h
      obtain ⟨htr, _⟩ := h
      subst htr
      intro r hr
      simp at hr
  | succ fuel ih =>
    intro i st tr stF h
    unfold dispatchLoop at h
    split at h
    · simp only [] at h
      cases hstep : dispatchIter resp (adv i) st with
      | none => rw [hstep] at h; exact absurd h (by simp)
      | some pr =>
        obtain ⟨rec, st'⟩ := pr
        rw [hstep] at h
        simp only [] at h
        cases hrec : dispatchLoop adv resp fuel (i + 1) st' with
        | none => rw [hrec] at h; exact absurd h (by simp)
        | some pr2 =>
          obtain ⟨tr', stF'⟩ := pr2
          rw [hrec] at h
          simp only [Option.some.injEq, Prod.mk.injEq] at h
          obtain ⟨htr, hstF⟩ := h
          subst htr
          obtain ⟨hqb, hcase⟩ := dispatchIter_cases hstep
          intro r hr
          rcases List.mem_cons.mp hr with hr | hr
          · subst hr
            intro sid tok hev
            rcases hcase with ⟨tok', rest, hrem, hev', hrem', hopen', hqa, hlt⟩ |
              ⟨ps, restQ, hqq, hev', hrem', hopen', hqa⟩
            · constructor
              · rw [hqb]; exact hlt
              · rw [hqa, hqb]
            · rw [hev'] at hev
              simp at hev
          · exact ih (i + 1) st' tr' stF' hrec r hr
    · simp only [Option.some.injEq, Prod.mk.injEq] at h
      obtain ⟨htr, _⟩ := h
      subst htr
      intro r hr
      simp at hr

/-- A batch call that returns a completed run did run the dispatch
loop (the connect step succeeded and was peeled off). -/
theorem send_notification_batch_ok {att : Nat → Bool} {adv : Nat → Int} {resp : Nat → Response}
    {tokens : List String} {fuel : Nat} {tr : List IterRecord} {stF : LoopState}
    (h : send_notification_batch att adv resp tokens fuel = Except.ok (some (tr, stF))) :
    dispatchLoop adv resp fuel 0 (initState tokens) = some (tr, stF) := by
  unfold send_notification_batch at h
  cases hc : (connect att).2 with
  | error e => rw [hc] at h; exact absurd h (by simp)
  | ok u => rw [hc] at h; simp only [Except.ok.injEq] at h; exact h

/-- Claim C1, evaluated at the failing input: for the single-token
batch ["A"] with every response of status 200, the batch completes and
the generator yields exactly the one-element list [Except.ok "Success"]
-- the bare classified outcome with no token attached.  The yielded
elements are therefore not (token, outcome) pairs, and the token-keyed
`results` mapping promised by the method docstring (source lines
150-152) is never populated or returned (source lines 164 and 186-194:
the dict writes and the return are commented out). -/
theorem C1_completeness_eval :
    (send_notification_batch attOk advTwo respOk ["A"] 2).map
        (fun o => o.map (fun p => yieldedValues p.1)) =
      Except.ok (some [Except.ok "Success"]) := by
  rfl

/-- Claim C2: FIFO drain order.  In any completed batch the sequence
of drained tokens equals the sequence of admitted tokens, which is
exactly the input sequence -- and this holds for every response
function `resp`, i.e. regardless of the order responses arrive at the
transport, since a drain consumes the response of the popped stream id
only. -/
theorem C2_fifo_drain_order (att : Nat → Bool) (adv : Nat → Int) (resp : Nat → Response)
    (tokens : List String) (fuel : Nat) (tr : List IterRecord) (stF : LoopState)
    (h : send_notification_batch att adv resp tokens fuel = Except.ok (some (tr, stF))) :
    drainTokens tr = admitTokens tr ∧ admitTokens tr = tokens := by
  obtain ⟨_, _, hadm, hdr, _⟩ :=
    dispatchLoop_shape adv resp fuel 0 (initState tokens) tr stF (send_notification_batch_ok h)
  constructor
  · rw [hdr, hadm]
    rfl
  · rw [hadm]
    rfl

/-- Claim C2 witness: the FIFO theorem applied to a concrete completed
two-token run. -/
theorem C2_fifo_drain_order_witness :
    drainTokens c2trace = admitTokens c2trace ∧ admitTokens c2trace = ["A", "B"] :=
  C2_fifo_drain_order attOk advTwo respOk ["A", "B"] 4 c2trace c2final rfl

/-- Claim C4: the limit clamp.  The clamp sends 0 (and every value
below 1) to 1, 5000 (and every value above 1000) to 1000, keeps 250
(and every in-range value) unchanged, always lands in [1, 1000], the
very first refresh stores the clamped advertised value, and any
refresh preserves the invariant 1 ≤ stored limit ≤ 1000. -/
theorem C4_limit_clamping :
    clampStreams 0 = 1 ∧ clampStreams 5000 = 1000 ∧ clampStreams 250 = 250 ∧
    (∀ a : Int, a < 1 → clampStreams a = 1) ∧
    (∀ a : Int, 1000 < a → clampStreams a = 1000) ∧
    (∀ a : Int, 1 ≤ a → a ≤ 1000 → clampStreams a = a) ∧
    (∀ a : Int, 1 ≤ clampStreams a ∧ clampStreams a ≤ 1000) ∧
    (∀ a : Int, (update_max_concurrent_streams none none a).2 = some (clampStreams a)) ∧
    (∀ (prev cur : Option Int) (a : Int),
      (∀ m, cur = some m → 1 ≤ m ∧ m ≤ 1000) →
      ∀ m, (update_max_concurrent_streams prev cur a).2 = some m → 1 ≤ m ∧ m ≤ 1000) := by
  refine ⟨by decide, by decide, by decide, ?_, ?_, ?_, clampStreams_range, ?_, ?_⟩
  · intro a ha
    unfold clampStreams CONCURRENT_STREAMS_SAFETY_MAXIMUM
    split <;> omega
  · intro a ha
    unfold clampStreams CONCURRENT_STREAMS_SAFETY_MAXIMUM
    split <;> omega
  · intro a ha hb
    unfold clampStreams CONCURRENT_STREAMS_SAFETY_MAXIMUM
    split <;> omega
  · intro a
    unfold update_max_concurrent_streams
    rw [if_neg (by simp)]
  · intro prev cur a hcur m hm
    unfold update_max_concurrent_streams at hm
    split at hm
    · simp only [] at hm
      exact hcur m hm
    · simp only [Option.some.injEq] at hm
      subst hm
      exact clampStreams_range a

/-- Claim C4 witness: the clamp theorem applied at concrete inputs,
discharging every hypothesis. -/
theorem C4_limit_clamping_witness :
    clampStreams (-7) = 1 ∧ clampStreams 4000 = 1000 ∧ clampStreams 17 = 17 ∧
    (∀ m, (update_max_concurrent_streams (some 5) (some 5) 2000).2 = some m →
      1 ≤ m ∧ m ≤ 1000) :=
  ⟨C4_limit_clamping.2.2.2.1 (-7) (by decide),
   C4_limit_clamping.2.2.2.2.1 4000 (by decide),
   C4_limit_clamping.2.2.2.2.2.1 17 (by decide) (by decide),
   C4_limit_clamping.2.2.2.2.2.2.2.2 (some 5) (some 5) 2000
     (by intro m hm; simp only [Option.some.injEq] at hm; omega)⟩

/-- Claim C5: the connection retry budget.  The loop makes at most
MAX_CONNECTION_RETRIES attempts; it returns successfully exactly when
one of the first three attempts succeeds (in particular two failures
followed by a success succeed, and three failures raise
ConnectionFailed); and the outcome depends only on the first three
attempt results. -/
theorem C5_connection_retry :
    (∀ att : Nat → Bool, (connect att).1.length ≤ MAX_CONNECTION_RETRIES) ∧
    (∀ att : Nat → Bool,
      ((connect att).2 = Except.ok ()) ↔ (att 0 || att 1 || att 2) = true) ∧
    (connect c5att).2 = Except.ok () ∧
    (connect (fun _ => false)).2 = Except.error () ∧
    (∀ a b : Nat → Bool, (∀ i, i < MAX_CONNECTION_RETRIES → a i = b i) →
      connect a = connect b) := by
  have hnf : ∀ att : Nat → Bool, connect att =
      if att 0 then ([0], Except.ok ())
      else if att 1 then ([0, 1], Except.ok ())
      else if att 2 then ([0, 1, 2], Except.ok ())
      else ([0, 1, 2], Except.error ()) := by
    intro att
    cases h0 : att 0 <;> cases h1 : att 1 <;> cases h2 : att 2 <;>
      simp [connect, connectAttempts, MAX_CONNECTION_RETRIES, h0, h1, h2]
  refine ⟨?_, ?_, by rfl, by rfl, ?_⟩
  · intro att
    rw [hnf att]
    split_ifs <;> simp [MAX_CONNECTION_RETRIES]
  · intro att
    rw [hnf att]
    cases h0 : att 0 <;> cases h1 : att 1 <;> cases h2 : att 2 <;> simp
  · intro a b hab
    rw [hnf a, hnf b, hab 0 (by decide), hab 1 (by decide), hab 2 (by decide)]

/-- Claim C5 witness: the retry theorem applied at concrete attempt
functions, discharging every hypothesis. -/
theorem C5_connection_retry_witness :
    (connect c5att).1.length ≤ MAX_CONNECTION_RETRIES ∧
    ((connect c5att).2 = Except.ok () ↔ (c5att 0 || c5att 1 || c5att 2) = true) ∧
    connect c5att = connect c5att :=
  ⟨C5_connection_retry.1 c5att, C5_connection_retry.2.1 c5att,
   C5_connection_retry.2.2.2.2 c5att c5att (fun _ _ => rfl)⟩

/-- Claim C6: response classification.  Status 200 always classifies
as the success marker; any other status classifies as the verbatim
value of the reason field of the body when that field is present; in
particular status 400 with body containing reason BadDeviceToken
yields BadDeviceToken. -/
theorem C6_response_classification :
    (∀ r : Response, r.status = 200 → get_notification_result r = Except.ok "Success") ∧
    (∀ (r : Response) (v : String), r.status ≠ 200 →
      List.lookup "reason" r.body = some v → get_notification_result r = Except.ok v) ∧
    get_notification_result { status := 400, body := [("reason", "BadDeviceToken")] } =
      Except.ok "BadDeviceToken" ∧
    get_notification_result { status := 200, body := [] } = Except.ok "Success" := by
  refine ⟨?_, ?_, by rfl, by rfl⟩
  · intro r h
    unfold get_notification_result
    rw [if_pos h]
  · intro r v h hl
    unfold get_notification_result
    rw [if_neg h, hl]

/-- Claim C6 witness: the classification theorem applied at concrete
responses, discharging every hypothesis. -/
theorem C6_response_classification_witness :
    get_notification_result { status := 200, body := [("reason", "Whatever")] } =
      Except.ok "Success" ∧
    get_notification_result { status := 410, body := [("reason", "Unregistered")] } =
      Except.ok "Unregistered" :=
  ⟨C6_response_classification.1 { status := 200, body := [("reason", "Whatever")] } rfl,
   C6_response_classification.2.1 { status := 410, body := [("reason", "Unregistered")] }
     "Unregistered" (by decide) (by rfl)⟩

/-- Claim C10: every call of send_notification fails with the
TypeError before any request is classified: the call site passes five
positional arguments while send_notification_async accepts at most
three (and requires at least one), so the Python call never binds. -/
theorem C10_send_notification_arity (r : Response) :
    send_notification r = Except.error "TypeError" := by
  rfl

/-- Claim C3 counterexample: with tokens ["A","B","C"] and the
advertised ceiling dropping from 3 to 1 at the fourth refresh, the
completed run contains an iteration (the first drain) whose deque
holds 3 entries before the step and 2 after while the current limit is
1: the claimed invariant fails as soon as the limit decreases below
the already-attained deque length. -/
theorem C3_admission_invariant_counterexample :
    ∃ tr stF, dispatchLoop advDrop respOk 6 0 (initState ["A", "B", "C"]) = some (tr, stF) ∧
      ¬(∀ r ∈ tr, (r.qBefore : Int) ≤ r.limit ∧ (r.qAfter : Int) ≤ r.limit) := by
  refine ⟨_, _, rfl, ?_⟩
  intro hall
  have h := hall { limit := 1, qBefore := 3, qAfter := 2,
                   event := StepEvent.drain "A" (Except.ok "Success") } (by decide)
  exact absurd h.1 (by decide)

/-- Claim C3 as amended: if the clamped advertised ceiling never
decreases from one refresh to the next, then at every iteration of the
dispatch loop the deque length is at most the current limit, both
before and after the admission-or-drain step; and unconditionally, an
admission happens only with the deque strictly below the current limit
and grows it by exactly one, so admissions alone never push the deque
past the limit (the excess in the counterexample can only come from
the limit dropping). -/
theorem C3_admission_invariant_amended (adv : Nat → Int) (resp : Nat → Response)
    (tokens : List String) (fuel : Nat) (tr : List IterRecord) (stF : LoopState)
    (hmono : ∀ k, clampStreams (adv k) ≤ clampStreams (adv (k + 1)))
    (h : dispatchLoop adv resp fuel 0 (initState tokens) = some (tr, stF)) :
    (∀ r ∈ tr, (r.qBefore : Int) ≤ r.limit ∧ (r.qAfter : Int) ≤ r.limit) ∧
    (∀ r ∈ tr, ∀ sid tok, r.event = StepEvent.admitted sid tok →
      (r.qBefore : Int) < r.limit ∧ r.qAfter = r.qBefore + 1) := by
  constructor
  · apply dispatchLoop_qbound adv resp hmono fuel 0 (initState tokens) tr stF
      (Or.inl ⟨rfl, rfl⟩) ?_ h
    have := (clampStreams_range (adv 0)).1
    simp only [initState, List.length_nil, Nat.cast_zero]
    omega
  · exact dispatchLoop_admit_bound adv resp fuel 0 (initState tokens) tr stF h

/-- Claim C3 witness: the amended invariant applied to a concrete
completed run with a constant ceiling. -/
theorem C3_admission_invariant_amended_witness :
    (∀ r ∈ c3trace, (r.qBefore : Int) ≤ r.limit ∧ (r.qAfter : Int) ≤ r.limit) ∧
    (∀ r ∈ c3trace, ∀ sid tok, r.event = StepEvent.admitted sid tok →
      (r.qBefore : Int) < r.limit ∧ r.qAfter = r.qBefore + 1) :=
  C3_admission_invariant_amended advTwo respOk ["A"] 2 c3trace c3final
    (fun _ => le_refl _) rfl

/-- Claim C7: termination.  With fuel at least twice the token count
the dispatch loop completes -- the run is `some`, the final cursor and
deque are empty, the loop took exactly 2N iterations and yielded
exactly N outcomes (a finite list); and conversely any completed run,
with whatever fuel, ends precisely in the cursor-exhausted,
deque-empty state, which is the only way the loop returns. -/
theorem C7_termination :
    (∀ (adv : Nat → Int) (resp : Nat → Response) (tokens : List String) (fuel : Nat),
      2 * tokens.length ≤ fuel →
      ∃ tr stF, dispatchLoop adv resp fuel 0 (initState tokens) = some (tr, stF) ∧
        stF.remaining = [] ∧ stF.open_streams = [] ∧
        tr.length = 2 * tokens.length ∧
        (yieldedValues tr).length = tokens.length) ∧
    (∀ (adv : Nat → Int) (resp : Nat → Response) (tokens : List String) (fuel : Nat)
      (tr : List IterRecord) (stF : LoopState),
      dispatchLoop adv resp fuel 0 (initState tokens) = some (tr, stF) →
      stF.remaining = [] ∧ stF.open_streams = []) := by
  constructor
  · intro adv resp tokens fuel hfuel
    obtain ⟨tr, stF, h⟩ := dispatchLoop_total adv resp fuel 0 (initState tokens)
      (Or.inl ⟨rfl, rfl⟩) (by simpa [initState] using hfuel)
    obtain ⟨h1, h2, hadm, hdr, hlen⟩ :=
      dispatchLoop_shape adv resp fuel 0 (initState tokens) tr stF h
    refine ⟨tr, stF, h, h1, h2, ?_, ?_⟩
    · rw [hlen]
      simp [initState]
    · rw [yieldedValues_length, hdr]
      simp [initState]
  · intro adv resp tokens fuel tr stF h
    obtain ⟨h1, h2, _, _, _⟩ :=
      dispatchLoop_shape adv resp fuel 0 (initState tokens) tr stF h
    exact ⟨h1, h2⟩

/-- Claim C7 witness: the termination theorem applied to a concrete
one-token batch with its exact fuel bound. -/
theorem C7_termination_witness :
    ∃ tr stF, dispatchLoop advTwo respOk 2 0 (initState ["A"]) = some (tr, stF) ∧
      stF.remaining = [] ∧ stF.open_streams = [] ∧
      tr.length = 2 * (["A"] : List String).length ∧
      (yieldedValues tr).length = (["A"] : List String).length :=
  C7_termination.1 advTwo respOk ["A"] 2 (by decide)

/-- Claim C8: the empty batch.  When the connect step succeeds, a
zero-length token sequence makes send_notification_batch return
immediately with an empty iteration trace: no request is admitted, no
drain suspension happens and nothing is yielded, for any fuel (the
loop body is never entered). -/
theorem C8_empty_batch (att : Nat → Bool) (adv : Nat → Int) (resp : Nat → Response)
    (fuel : Nat) (hconn : (connect att).2 = Except.ok ()) :
    send_notification_batch att adv resp [] fuel = Except.ok (some ([], initState [])) := by
  unfold send_notification_batch
  rw [hconn]
  simp only []
  unfold dispatchLoop
  rw [if_neg (by simp [initState] :
    ¬(0 < (initState ([] : List String)).open_streams.length ∨
      (initState ([] : List String)).remaining ≠ []))]

/-- Claim C8 witness: the empty-batch theorem at a concrete attempt
function with zero fuel. -/
theorem C8_empty_batch_witness :
    send_notification_batch attOk advTwo respOk [] 0 = Except.ok (some ([], initState [])) :=
  C8_empty_batch attOk advTwo respOk 0 rfl

/-- Claim C9 counterexample: supplying the empty-string topic is
supplying a topic, yet prepare_headers emits no apns-topic header,
because source line 98 tests Python truthiness (`if topic:`), which is
false for the empty string exactly as for None; so the
present-iff-supplied biconditional fails at topic = some "". -/
theorem C9_header_rules_counterexample :
    (some "" : Option String).isSome = true ∧
    List.lookup "apns-topic"
      (prepare_headers NotificationPriority.Immediate (some "") none none) = none := by
  exact ⟨rfl, rfl⟩

/-- Claim C9 as amended: the apns-priority header is present (with the
wire value of the enumeration) iff the priority differs from the
default Immediate; the apns-topic header is present (with the supplied
topic) iff a NON-EMPTY topic was supplied; the apns-expiration header
is present iff an expiration was supplied, rendered as a decimal
integer string. -/
theorem C9_header_rules_amended (priority : NotificationPriority) (topic : Option String)
    (expiration : Option Int) (authToken : Option String) :
    List.lookup "apns-priority" (prepare_headers priority topic expiration authToken) =
      (if priority = DEFAULT_APNS_PRIORITY then none else some priority.value) ∧
    List.lookup "apns-topic" (prepare_headers priority topic expiration authToken) =
      (match topic with
       | some t => if t = "" then none else some t
       | none => none) ∧
    List.lookup "apns-expiration" (prepare_headers priority topic expiration authToken) =
      expiration.map (fun e => toString e) := by
  unfold prepare_headers DEFAULT_APNS_PRIORITY
  cases priority <;> rcases topic with _ | t <;> rcases expiration with _ | e <;>
    rcases authToken with _ | tok <;>
    refine ⟨?_, ?_, ?_⟩
  all_goals
    (first
      | rfl
      | (by_cases ht : t = ""
         · subst ht
           rfl
         · simp only [if_neg ht]
           rfl))

/-- Claim C9 witness: the amended header rules applied at a concrete
input. -/
theorem C9_header_rules_amended_witness :
    List.lookup "apns-topic"
      (prepare_headers NotificationPriority.Delayed (some "com.example") (some 3) none) =
      some "com.example" :=
  (C9_header_rules_amended NotificationPriority.Delayed (some "com.example") (some 3) none).2.1

/-- Claim C10 witness: the arity theorem applied at a concrete
response. -/
theorem C10_send_notification_arity_witness :
    send_notification { status := 200, body := [] } = Except.error "TypeError" :=
  C10_send_notification_arity { status := 200, body := [] }

end APNs
